import Mathlib

/-!
Shallow embedding of the Linkly URL shortener (src/app.py) in Lean 4.

The Flask/Mongo plumbing is modelled as explicit state passing over a list of
records (the `urls` collection). Python truthiness on optional strings is
modelled explicitly (`none` and `some ""` are falsy). Python exceptions
(`datetime.strptime` / `int` raising `ValueError`) are modelled with
`Except String`. `datetime` values are modelled as six-field structures with
lexicographic order; `datetime.strptime(s, "%Y-%m-%d %H:%M:%S")` is modelled
by a parser for that fixed format with calendar validation.
-/

set_option autoImplicit false

namespace Linkly

instance {ε α : Type} [DecidableEq ε] [DecidableEq α] :
    DecidableEq (Except ε α) := fun a b =>
  match a, b with
  | .error e₁, .error e₂ =>
    if h : e₁ = e₂ then isTrue (h ▸ rfl)
    else isFalse fun hc => h (Except.error.inj hc)
  | .ok v₁, .ok v₂ =>
    if h : v₁ = v₂ then isTrue (h ▸ rfl)
    else isFalse fun hc => h (Except.ok.inj hc)
  | .error _, .ok _ => isFalse fun hc => Except.noConfusion hc
  | .ok _, .error _ => isFalse fun hc => Except.noConfusion hc

/-- Python truthiness of an optional string: `None` and `""` are falsy. -/
def truthy : Option String → Bool
  | none => false
  | some s => s ≠ ""

/-- A `datetime.datetime` value (date and time of day), as produced by
`datetime.strptime(s, "%Y-%m-%d %H:%M:%S")`. -/
structure DateTime where
  year : Nat
  month : Nat
  day : Nat
  hour : Nat
  minute : Nat
  second : Nat
deriving DecidableEq, Repr

/-- Strict chronological order on `DateTime` (Python `datetime <`),
lexicographic on the six components. -/
def DateTime.lt (a b : DateTime) : Bool :=
  if a.year ≠ b.year then a.year < b.year
  else if a.month ≠ b.month then a.month < b.month
  else if a.day ≠ b.day then a.day < b.day
  else if a.hour ≠ b.hour then a.hour < b.hour
  else if a.minute ≠ b.minute then a.minute < b.minute
  else a.second < b.second

/-- Whether `y` is a leap year (Gregorian rule, as `datetime` uses). -/
def isLeapYear (y : Nat) : Bool :=
  (y % 4 = 0 && y % 100 ≠ 0) || y % 400 = 0

/-- Number of days in month `m` of year `y` (as `datetime` validates). -/
def daysInMonth (y m : Nat) : Nat :=
  if m = 2 then (if isLeapYear y then 29 else 28)
  else if m = 4 || m = 6 || m = 9 || m = 11 then 30
  else 31

/-! String manipulation is modelled over `List Char` (via `String.data`)
with structural recursion, so that every definition evaluates inside kernel
proofs. -/

/-- Split a character list on every occurrence of `sep`
(Python `s.split(sep)` for a one-character separator). -/
def splitOnCharAux (sep : Char) : List Char → List Char → List (List Char)
  | [], acc => [acc.reverse]
  | c :: cs, acc =>
    if c = sep then acc.reverse :: splitOnCharAux sep cs []
    else splitOnCharAux sep cs (c :: acc)

/-- Python `s.split(sep)` for a one-character separator
(`"".split(sep) = [""]`, and empty pieces are kept). -/
def splitOnChar (s : List Char) (sep : Char) : List (List Char) :=
  splitOnCharAux sep s []

/-- ASCII whitespace, as Python `str.strip` removes by default. -/
def isPySpace (c : Char) : Bool :=
  c = ' ' || c = '\t' || c = '\n' || c = '\r' || c = '\x0b' || c = '\x0c'

/-- Python `s.strip()`: drop leading and trailing whitespace. -/
def pyStripChars (s : List Char) : List Char :=
  ((s.dropWhile isPySpace).reverse.dropWhile isPySpace).reverse

/-- Python `str.upper` on one character (ASCII; the country codes this
program uppercases are ASCII). -/
def pyUpperChar (c : Char) : Char :=
  if 'a' ≤ c && c ≤ 'z' then Char.ofNat (c.toNat - 32) else c

/-- Python `s.upper()`. -/
def pyUpper (s : String) : String :=
  String.mk (s.data.map pyUpperChar)

/-- Decimal digits read as a `Nat`. -/
def digitsToNat (s : List Char) : Nat :=
  s.foldl (fun acc c => acc * 10 + (c.toNat - 48)) 0

/-- A run of 1 to `maxLen` ASCII digits, read as a `Nat` (one `strptime`
numeric field). -/
def parseNatField (maxLen : Nat) (s : List Char) : Option Nat :=
  if s.length = 0 || s.length > maxLen || ¬ s.all (·.isDigit) then none
  else some (digitsToNat s)

/-- `datetime.strptime(s, "%Y-%m-%d %H:%M:%S")`: parse the fixed
`YYYY-MM-DD HH:MM:SS` format, validating calendar ranges; `none` models the
`ValueError` the Python call raises on malformed input. (The `strptime`
tolerance for repeated whitespace at the literal space is outside this
model; both sides agree on canonical and on clearly malformed inputs.) -/
def strptime (s : String) : Option DateTime :=
  match splitOnChar s.data ' ' with
  | [datePart, timePart] =>
    match splitOnChar datePart '-', splitOnChar timePart ':' with
    | [ys, ms, ds], [hs, mis, ss] =>
      match parseNatField 4 ys, parseNatField 2 ms, parseNatField 2 ds,
            parseNatField 2 hs, parseNatField 2 mis, parseNatField 2 ss with
      | some y, some mo, some d, some h, some mi, some sec =>
        if 1 ≤ y && 1 ≤ mo && mo ≤ 12 && 1 ≤ d && d ≤ daysInMonth y mo &&
           h ≤ 23 && mi ≤ 59 && sec ≤ 59 then
          some ⟨y, mo, d, h, mi, sec⟩
        else none
      | _, _, _, _, _, _ => none
    | _, _ => none
  | _ => none

/-- One document of the `urls` collection (§3 ShortLinkRecord).
`country_redirect` is a Python dict modelled as an association list in
insertion order (first match on lookup; assignment overwrites in place). -/
structure UrlRecord where
  short_id : String
  long_url : String
  clicks : Nat
  password : Option String
  expiry_date : Option String
  max_clicks : Option Int
  mobile_url : Option String
  desktop_url : Option String
  country_redirect : Option (List (String × String))
deriving DecidableEq, Repr

/-- Dict lookup (`country_code in country_data` and indexing): the value of
the first pair with the given key. -/
def dictLookup : List (String × String) → String → Option String
  | [], _ => none
  | (k, v) :: rest, key => if k = key then some v else dictLookup rest key

/-- Dict assignment `d[k] = v`: overwrite in place if the key is present,
else append. -/
def dictInsert : List (String × String) → String → String → List (String × String)
  | [], k, v => [(k, v)]
  | (k', v') :: rest, k, v =>
    if k' = k then (k, v) :: rest else (k', v') :: dictInsert rest k v

/-- `is_expired(url_data)` (app.py lines 30-40), with `now` passed
explicitly. `.error` models the `ValueError` that `strptime` raises on a
malformed stored date. -/
def is_expired (url_data : UrlRecord) (now : DateTime) : Except String Bool :=
  let dateCheck : Except String Bool :=
    if truthy url_data.expiry_date then
      match strptime (url_data.expiry_date.getD "") with
      | none => .error "ValueError: time data does not match format"
      | some expiry_dt => .ok (DateTime.lt expiry_dt now)
    else .ok false
  match dateCheck with
  | .error e => .error e
  | .ok true => .ok true
  | .ok false =>
    match url_data.max_clicks with
    | some m => .ok (m ≠ 0 && decide ((url_data.clicks : Int) ≥ m))
    | none => .ok false

/-- `get_country_redirect(url_data, country_code)` (app.py lines 42-47).
The Python `if country_data and ...` treats an empty dict as falsy. -/
def get_country_redirect (url_data : UrlRecord) (country_code : String) :
    Option String :=
  match url_data.country_redirect with
  | none => none
  | some cd => if cd = [] then none else dictLookup cd country_code

/-! ## Store operations (the `urls` Mongo collection) -/

/-- `urls.find_one({"short_id": sid})`: first record with that id. -/
def find_one : List UrlRecord → String → Option UrlRecord
  | [], _ => none
  | r :: rest, sid => if r.short_id = sid then some r else find_one rest sid

/-- `urls.update_one({"short_id": sid}, {"$inc": {"clicks": 1}})`:
increment `clicks` of the first matching record. -/
def inc_clicks : List UrlRecord → String → List UrlRecord
  | [], _ => []
  | r :: rest, sid =>
    if r.short_id = sid then { r with clicks := r.clicks + 1 } :: rest
    else r :: inc_clicks rest sid

/-! ## Redirect endpoint (`GET/POST /<short_id>`, app.py lines 156-199) -/

/-- The two HTTP methods the redirect route accepts. -/
inductive Method where
  | GET
  | POST
deriving DecidableEq, Repr

/-- The request context a redirect request carries: method, form and JSON
password fields (`none` = field absent), the device classification booleans
computed by `user_agents.parse`, and the optional `X-Country` header. -/
structure RedirectRequest where
  method : Method
  form_password : Option String
  is_json : Bool
  json_password : Option String
  is_mobile : Bool
  is_pc : Bool
  country_header : Option String
deriving DecidableEq, Repr

/-- `request.form.get("password") or (request.json.get("password") if
request.is_json else None)` (app.py line 169): the form value when truthy,
else the JSON value when the body is JSON, else `None`. -/
def extract_password (req : RedirectRequest) : Option String :=
  let jsonFallback := if req.is_json then req.json_password else none
  match req.form_password with
  | some p => if p ≠ "" then some p else jsonFallback
  | none => jsonFallback

/-- Outcome of a redirect request: 404, 403 expired, the password prompt
page, 403 wrong password, a 302 to `target`, or an uncaught exception
(`is_expired` raising on a malformed stored date). -/
inductive RedirectOutcome where
  | notFound
  | expired
  | passwordPrompt
  | wrongPassword
  | redirected (target : String)
  | raised (msg : String)
deriving DecidableEq, Repr

/-- `redirect_short_url(short_id)` (app.py lines 156-199): resolve and
redirect, returning the outcome and the collection after the request
(clicks are incremented only on the 302 path). -/
def redirect_short_url (store : List UrlRecord) (short_id : String)
    (req : RedirectRequest) (now : DateTime) :
    RedirectOutcome × List UrlRecord :=
  match find_one store short_id with
  | none => (.notFound, store)
  | some url_data =>
    match is_expired url_data now with
    | .error e => (.raised e, store)
    | .ok true => (.expired, store)
    | .ok false =>
      let gated : Option RedirectOutcome :=
        if truthy url_data.password then
          match req.method with
          | .POST =>
            if extract_password req ≠ url_data.password then
              some .wrongPassword
            else none
          | .GET => some .passwordPrompt
        else none
      match gated with
      | some out => (out, store)
      | none =>
        let target₀ :=
          if req.is_mobile && truthy url_data.mobile_url then
            url_data.mobile_url.getD ""
          else if req.is_pc && truthy url_data.desktop_url then
            url_data.desktop_url.getD ""
          else url_data.long_url
        let country_code := pyUpper (req.country_header.getD "")
        let target :=
          match get_country_redirect url_data country_code with
          | some cu => if cu ≠ "" then cu else target₀
          | none => target₀
        (.redirected target, inc_clicks store short_id)

/-! ## Creation endpoint (`POST /shorten`, app.py lines 79-134) -/

/-- `int(x)` on a string: optional surrounding whitespace, optional sign,
then one or more digits; `none` models the `ValueError` on anything else.
(PEP 515 underscore separators are outside this model.) -/
def pyInt (s : String) : Option Int :=
  let t := pyStripChars s.data
  let neg : Bool := match t with
    | c :: _ => c = '-'
    | [] => false
  let core := match t with
    | c :: rest => if c = '-' || c = '+' then rest else t
    | [] => []
  if core.length = 0 || ¬ core.all (·.isDigit) then none
  else some (if neg then -(digitsToNat core : Int) else (digitsToNat core : Int))

/-- Parsing of the `country_redirect` field (app.py lines 113-120 and
249-256): split on `;`, keep pairs containing `=`, split each on the first
`=`, strip and uppercase the code, strip the URL. -/
def parse_country_redirect (s : String) : List (String × String) :=
  (splitOnChar s.data ';').foldl
    (fun d pair =>
      if pair.contains '=' then
        let code := pair.takeWhile (· ≠ '=')
        let url := pair.drop (code.length + 1)
        dictInsert d (pyUpper (String.mk (pyStripChars code)))
          (String.mk (pyStripChars url))
      else d)
    []

/-- The optional fields of a creation request after form/JSON extraction
(app.py lines 80-98); `none` = absent, and `max_clicks` is the raw string
before `int()`. -/
structure ShortenInput where
  long_url : Option String
  custom_id : Option String
  password : Option String
  expiry_date : Option String
  max_clicks : Option String
  mobile_url : Option String
  desktop_url : Option String
  country_redirect : Option String
deriving DecidableEq, Repr

/-- Outcome of a creation request: 400 missing URL, 400 custom id taken,
the created record, an uncaught `ValueError` from `int(max_clicks)`, or
exhaustion of the (in the source, unbounded) fresh-id retry loop's
candidate stream. -/
inductive ShortenResult where
  | missingUrl
  | conflict
  | created (r : UrlRecord)
  | raised (msg : String)
  | genExhausted
deriving DecidableEq, Repr

/-- `x or None` on an optional string: empty strings are stored as null. -/
def orNone (o : Option String) : Option String :=
  match o with
  | some s => if s = "" then none else some s
  | none => none

/-- First candidate id not present in the store (the `while
urls.find_one(...)` retry loop of app.py lines 109-111, with the random
stream made explicit as `gens`). -/
def firstFresh (store : List UrlRecord) : List String → Option String
  | [] => none
  | g :: rest => if (find_one store g).isSome then firstFresh store rest else some g

/-- The straight-line tail of `shorten()` after the short id is fixed
(app.py lines 113-134): parse the country mapping, run `int(max_clicks)`
(which may raise), build the document, insert it. -/
def shorten_insert (store : List UrlRecord) (inp : ShortenInput)
    (short_id : String) : ShortenResult × List UrlRecord :=
  let country_dict : Option (List (String × String)) :=
    if truthy inp.country_redirect then
      some (parse_country_redirect (inp.country_redirect.getD ""))
    else none
  let maxClicksResult : Except String (Option Int) :=
    if truthy inp.max_clicks then
      match pyInt (inp.max_clicks.getD "") with
      | some n => .ok (some n)
      | none => .error "ValueError: invalid literal for int"
    else .ok none
  match maxClicksResult with
  | .error e => (.raised e, store)
  | .ok mc =>
    let url_entry : UrlRecord :=
      { short_id := short_id
        long_url := inp.long_url.getD ""
        clicks := 0
        password := orNone inp.password
        expiry_date := orNone inp.expiry_date
        max_clicks := mc
        mobile_url := orNone inp.mobile_url
        desktop_url := orNone inp.desktop_url
        country_redirect := country_dict }
    (.created url_entry, store ++ [url_entry])

/-- `shorten()` POST path (app.py lines 79-134): validate, allocate the
short id (custom with a conflict check, or generated), then insert. `gens`
is the stream of generated candidate ids consumed when no custom id is
given. -/
def shorten (store : List UrlRecord) (inp : ShortenInput)
    (gens : List String) : ShortenResult × List UrlRecord :=
  if ¬ truthy inp.long_url then (.missingUrl, store)
  else if truthy inp.custom_id then
    if (find_one store (inp.custom_id.getD "")).isSome then
      (.conflict, store)
    else shorten_insert store inp (inp.custom_id.getD "")
  else
    match firstFresh store gens with
    | some g => shorten_insert store inp g
    | none => (.genExhausted, store)

/-! ## Update endpoint (`PATCH|POST /update/<short_id>`, app.py 228-264) -/

/-- The value a JSON update payload carries for `max_clicks`: JSON `null`,
a string (fed to `int()`), or a number. -/
inductive MaxClicksVal where
  | null
  | str (s : String)
  | int (n : Int)
deriving DecidableEq, Repr

/-- A JSON update payload. For each key, `none` means the key is absent from
the payload; for the string-valued fields, `some none` is JSON `null` and
`some (some s)` a string. `long_url` and `short_id` can appear in a payload
but are not in the route's recognized-field list (app.py line 241). -/
structure UpdatePayload where
  password : Option (Option String)
  expiry_date : Option (Option String)
  max_clicks : Option MaxClicksVal
  mobile_url : Option (Option String)
  desktop_url : Option (Option String)
  country_redirect : Option (Option String)
  long_url : Option (Option String)
  short_id : Option (Option String)
deriving DecidableEq, Repr

/-- The `update_fields` dict: `some v` means the field is `$set` to `v`
(where `v = none` sets it to null). -/
structure UpdateFields where
  password : Option (Option String)
  expiry_date : Option (Option String)
  max_clicks : Option (Option Int)
  mobile_url : Option (Option String)
  desktop_url : Option (Option String)
  country_redirect : Option (Option (List (String × String)))
deriving DecidableEq, Repr

/-- `if not update_fields:` — the dict is empty. -/
def UpdateFields.isEmpty (f : UpdateFields) : Bool :=
  f.password = none && f.expiry_date = none && f.max_clicks = none &&
  f.mobile_url = none && f.desktop_url = none && f.country_redirect = none

/-- Normalization of a present string-valued payload entry (app.py lines
243-245, 257-258): `""` and `null` clear the field, anything else is stored
as given. -/
def normStr (v : Option String) : Option String :=
  match v with
  | none => none
  | some s => if s = "" then none else some s

/-- The loop of app.py lines 241-258 building `update_fields` from the
payload; `.error` models the uncaught `ValueError` of `int(value)`. -/
def build_update_fields (p : UpdatePayload) : Except String UpdateFields := do
  let pw := p.password.map normStr
  let ed := p.expiry_date.map normStr
  let mc ← match p.max_clicks with
    | none => pure none
    | some .null => pure (some none)
    | some (.str s) =>
      if s = "" then pure (some none)
      else match pyInt s with
        | some n => pure (some (some n))
        | none => throw "ValueError: invalid literal for int"
    | some (.int n) => pure (some (some n))
  let mu := p.mobile_url.map normStr
  let du := p.desktop_url.map normStr
  let cr := match p.country_redirect with
    | none => none
    | some v =>
      match normStr v with
      | none => some none
      | some s => some (some (parse_country_redirect s))
  return { password := pw, expiry_date := ed, max_clicks := mc,
           mobile_url := mu, desktop_url := du, country_redirect := cr }

/-- `$set` of the built `update_fields` on one record. -/
def applySet (r : UrlRecord) (f : UpdateFields) : UrlRecord :=
  { r with
    password := f.password.getD r.password
    expiry_date := f.expiry_date.getD r.expiry_date
    max_clicks := f.max_clicks.getD r.max_clicks
    mobile_url := f.mobile_url.getD r.mobile_url
    desktop_url := f.desktop_url.getD r.desktop_url
    country_redirect := f.country_redirect.getD r.country_redirect }

/-- `urls.update_one({"short_id": sid}, {"$set": f})`: apply `f` to the
first matching record. -/
def update_one_set (store : List UrlRecord) (sid : String)
    (f : UpdateFields) : List UrlRecord :=
  match store with
  | [] => []
  | r :: rest =>
    if r.short_id = sid then applySet r f :: rest
    else r :: update_one_set rest sid f

/-- Outcome of an update request: 404, 400 non-JSON body, 400 "No updates
provided", success echoing the set fields, or an uncaught `ValueError`. -/
inductive UpdateResult where
  | notFound
  | notJson
  | noUpdates
  | updated (f : UpdateFields)
  | raised (msg : String)
deriving DecidableEq, Repr

/-- `update_url(short_id)` (app.py lines 228-264). -/
def update_url (store : List UrlRecord) (short_id : String)
    (is_json : Bool) (p : UpdatePayload) : UpdateResult × List UrlRecord :=
  match find_one store short_id with
  | none => (.notFound, store)
  | some _ =>
    if ¬ is_json then (.notJson, store)
    else
      match build_update_fields p with
      | .error e => (.raised e, store)
      | .ok f =>
        if f.isEmpty then (.noUpdates, store)
        else (.updated f, update_one_set store short_id f)

/-! ## Read-only endpoints (`GET /stats/<short_id>`, `GET /qr/<short_id>`,
app.py lines 202-225): pure functions of the store — they perform no write
on the `urls` collection. -/

/-- The JSON snapshot `stats` returns (app.py lines 210-225); the password
value itself is replaced by a boolean. -/
structure StatsJson where
  long_url : String
  clicks : Nat
  expiry_date : Option String
  max_clicks : Option Int
  password_protected : Bool
  mobile_url : Option String
  desktop_url : Option String
  country_redirect : Option (List (String × String))
deriving DecidableEq, Repr

/-- `stats(short_id)`: a read-only snapshot, `none` on 404. -/
def stats (store : List UrlRecord) (short_id : String) : Option StatsJson :=
  (find_one store short_id).map fun r =>
    { long_url := r.long_url
      clicks := r.clicks
      expiry_date := r.expiry_date
      max_clicks := r.max_clicks
      password_protected := truthy r.password
      mobile_url := r.mobile_url
      desktop_url := r.desktop_url
      country_redirect := r.country_redirect }

/-- `get_qr(short_id)`: serves a file from the QR directory (modelled as a
list of file stems); touches no record. -/
def get_qr (qr_files : List String) (short_id : String) : Bool :=
  short_id ∈ qr_files

/-! ## Spec-side definitions

These are written from the specification's wording (not from the source) so
that the endpoint embeddings above can be compared against them. -/

/-- Modelled from the spec §4.4: the device-override / `long_url` fallback
logic alone — mobile class with a set (non-empty) `mobile_url` wins, else
desktop class with a set `desktop_url`, else `long_url`. -/
def deviceResolve (r : UrlRecord) (isMobile isPc : Bool) : String :=
  if isMobile && truthy r.mobile_url then r.mobile_url.getD ""
  else if isPc && truthy r.desktop_url then r.desktop_url.getD ""
  else r.long_url

/-- Modelled from the spec §4.4 precedence list, amended for the source's
truthiness check: a country override whose mapped URL is non-empty wins over
everything; otherwise the device/`long_url` logic decides. -/
def resolveSpec (r : UrlRecord) (isMobile isPc : Bool) (cc : String) :
    String :=
  match r.country_redirect with
  | some cd =>
    match dictLookup cd cc with
    | some cu => if cu ≠ "" then cu else deviceResolve r isMobile isPc
    | none => deviceResolve r isMobile isPc
  | none => deviceResolve r isMobile isPc

/-- Modelled from the spec §4.2: the date half of the expiry check — the
field is set (non-empty), well-formed, and strictly before `now`. -/
def expiredByDate (r : UrlRecord) (now : DateTime) : Bool :=
  match r.expiry_date with
  | some s =>
    s ≠ "" &&
      (match strptime s with
       | some d => DateTime.lt d now
       | none => false)
  | none => false

/-- Modelled from the spec §4.2: the quota half of the expiry check —
`max_clicks` is set and `clicks >= max_clicks`. -/
def exhaustedByQuota (r : UrlRecord) : Bool :=
  match r.max_clicks with
  | some n => decide ((n : Int) ≤ (r.clicks : Int))
  | none => false

/-- The record's `expiry_date` is absent, cleared, or parses in the fixed
format (the well-formedness §4.2 presumes of stored dates). -/
def wellFormedExpiry (r : UrlRecord) : Bool :=
  match r.expiry_date with
  | some s => s = "" || (strptime s).isSome
  | none => true

/-- The record's `max_clicks` is absent or a positive integer
(§3: "optional positive integer"). -/
def maxClicksPositive (r : UrlRecord) : Bool :=
  match r.max_clicks with
  | some n => 0 < n
  | none => true

/-- No recognized update field is present in the payload. -/
def UpdatePayload.noRecognized (p : UpdatePayload) : Bool :=
  p.password = none && p.expiry_date = none && p.max_clicks = none &&
  p.mobile_url = none && p.desktop_url = none && p.country_redirect = none

/-! ## Helper lemmas about the store operations -/

theorem find_one_append {store : List UrlRecord} {sid : String}
    {r : UrlRecord} (l : List UrlRecord) (h : find_one store sid = some r) :
    find_one (store ++ l) sid = some r := by
  induction store with
  | nil => exact Option.noConfusion h
  | cons hd tl ih =>
    by_cases hh : hd.short_id = sid
    · simpa [find_one, hh] using h
    · rw [List.cons_append]
      simp only [find_one, if_neg hh] at h ⊢
      exact ih h

theorem find_one_inc_clicks (store : List UrlRecord) (sid : String) :
    find_one (inc_clicks store sid) sid =
      (find_one store sid).map (fun r => { r with clicks := r.clicks + 1 }) := by
  induction store with
  | nil => rfl
  | cons hd tl ih =>
    by_cases hh : hd.short_id = sid
    · simp [find_one, inc_clicks, hh]
    · simp [find_one, inc_clicks, hh, ih]

theorem find_one_inc_clicks_other (store : List UrlRecord) {sid sid' : String}
    (h : sid' ≠ sid) :
    find_one (inc_clicks store sid) sid' = find_one store sid' := by
  induction store with
  | nil => rfl
  | cons hd tl ih =>
    by_cases hh : hd.short_id = sid
    · have hne : sid ≠ sid' := fun he => h he.symm
      simp [find_one, inc_clicks, hh, hne]
    · by_cases hh' : hd.short_id = sid'
      · simp [find_one, inc_clicks, hh, hh', h]
      · simp [find_one, inc_clicks, hh, hh', ih]

theorem applySet_short_id (r : UrlRecord) (f : UpdateFields) :
    (applySet r f).short_id = r.short_id := rfl

theorem applySet_long_url (r : UrlRecord) (f : UpdateFields) :
    (applySet r f).long_url = r.long_url := rfl

theorem applySet_clicks (r : UrlRecord) (f : UpdateFields) :
    (applySet r f).clicks = r.clicks := rfl

theorem applySet_idem (r : UrlRecord) (f : UpdateFields) :
    applySet (applySet r f) f = applySet r f := by
  rcases f with ⟨fp, fe, fm, fmu, fdu, fcr⟩
  cases fp <;> cases fe <;> cases fm <;> cases fmu <;> cases fdu <;>
    cases fcr <;> rfl

theorem find_one_update_one_set (store : List UrlRecord) (sid : String)
    (f : UpdateFields) :
    find_one (update_one_set store sid f) sid =
      (find_one store sid).map (applySet · f) := by
  induction store with
  | nil => rfl
  | cons hd tl ih =>
    by_cases hh : hd.short_id = sid
    · simp [find_one, update_one_set, hh, applySet_short_id]
    · simp [find_one, update_one_set, hh, applySet_short_id, ih]

theorem find_one_update_one_set_other (store : List UrlRecord)
    {sid sid' : String} (f : UpdateFields) (h : sid' ≠ sid) :
    find_one (update_one_set store sid f) sid' = find_one store sid' := by
  induction store with
  | nil => rfl
  | cons hd tl ih =>
    by_cases hh : hd.short_id = sid
    · have hne : sid ≠ sid' := fun he => h he.symm
      simp [find_one, update_one_set, hh, hne, applySet_short_id]
    · by_cases hh' : hd.short_id = sid'
      · simp [find_one, update_one_set, hh, hh', h]
      · simp [find_one, update_one_set, hh, hh', ih]

theorem update_one_set_idem (store : List UrlRecord) (sid : String)
    (f : UpdateFields) :
    update_one_set (update_one_set store sid f) sid f =
      update_one_set store sid f := by
  induction store with
  | nil => rfl
  | cons hd tl ih =>
    by_cases hh : hd.short_id = sid
    · simp [update_one_set, hh, applySet_short_id, applySet_idem]
    · simp [update_one_set, hh, ih]

theorem update_one_set_long_url_map (store : List UrlRecord) (sid : String)
    (f : UpdateFields) :
    (update_one_set store sid f).map (fun r => (r.short_id, r.long_url)) =
      store.map (fun r => (r.short_id, r.long_url)) := by
  induction store with
  | nil => rfl
  | cons hd tl ih =>
    by_cases hh : hd.short_id = sid
    · simp [update_one_set, hh, applySet_short_id, applySet_long_url]
    · simp [update_one_set, hh, ih]

theorem resolveSpec_eq_source (r : UrlRecord) (im ip : Bool) (cc : String) :
    resolveSpec r im ip cc =
      (match get_country_redirect r cc with
       | some cu =>
         if cu ≠ "" then cu
         else
           if im && truthy r.mobile_url then r.mobile_url.getD ""
           else if ip && truthy r.desktop_url then r.desktop_url.getD ""
           else r.long_url
       | none =>
         if im && truthy r.mobile_url then r.mobile_url.getD ""
         else if ip && truthy r.desktop_url then r.desktop_url.getD ""
         else r.long_url) := by
  unfold resolveSpec deviceResolve get_country_redirect
  cases hcr : r.country_redirect with
  | none => rfl
  | some cd =>
    cases cd with
    | nil => rfl
    | cons p rest => simp

/-- Full unfolding of the redirect endpoint: the 302 target is exactly the
spec-side resolver, clicks are incremented exactly on the 302 path, and the
gate behaves as a method switch. -/
theorem redirect_eq (store : List UrlRecord) (sid : String)
    (req : RedirectRequest) (now : DateTime) :
    redirect_short_url store sid req now =
      (match find_one store sid with
       | none => (.notFound, store)
       | some r =>
         match is_expired r now with
         | .error e => (.raised e, store)
         | .ok true => (.expired, store)
         | .ok false =>
           if truthy r.password then
             match req.method with
             | .POST =>
               if extract_password req ≠ r.password then
                 (.wrongPassword, store)
               else
                 (.redirected (resolveSpec r req.is_mobile req.is_pc
                    (pyUpper (req.country_header.getD ""))),
                  inc_clicks store sid)
             | .GET => (.passwordPrompt, store)
           else
             (.redirected (resolveSpec r req.is_mobile req.is_pc
                (pyUpper (req.country_header.getD ""))),
              inc_clicks store sid)) := by
  unfold redirect_short_url
  cases hf : find_one store sid with
  | none => rfl
  | some r =>
    cases he : is_expired r now with
    | error e => simp [he]
    | ok b =>
      cases b with
      | true => simp [he]
      | false =>
        by_cases hp : truthy r.password
        · cases req.method with
          | GET => simp [he, hp]
          | POST =>
            by_cases hx : extract_password req ≠ r.password
            · simp [he, hp, hx]
            · simp [he, hp, hx, resolveSpec_eq_source]
        · simp [he, hp, resolveSpec_eq_source]

/-- The store after a redirect request: incremented exactly when the
outcome is a 302, untouched otherwise. -/
theorem redirect_store_characterization (store : List UrlRecord)
    (sid : String) (req : RedirectRequest) (now : DateTime) :
    ((∃ t, (redirect_short_url store sid req now).1 =
        RedirectOutcome.redirected t) ∧
      (redirect_short_url store sid req now).2 = inc_clicks store sid) ∨
    ((∀ t, (redirect_short_url store sid req now).1 ≠
        RedirectOutcome.redirected t) ∧
      (redirect_short_url store sid req now).2 = store) := by
  rw [redirect_eq]
  cases hf : find_one store sid with
  | none => right; simp
  | some r =>
    cases he : is_expired r now with
    | error e => right; simp [he]
    | ok b =>
      cases b with
      | true => right; simp [he]
      | false =>
        by_cases hp : truthy r.password
        · cases hm : req.method with
          | GET => right; simp [he, hp]
          | POST =>
            by_cases hx : extract_password req ≠ r.password
            · right; simp [he, hp, hx]
            · left; simp [he, hp, hx]
        · left; simp [he, hp]

/-- An empty payload builds an empty `update_fields` dict. -/
theorem build_noRecognized {p : UpdatePayload}
    (h : p.noRecognized = true) :
    build_update_fields p =
      .ok { password := none, expiry_date := none, max_clicks := none,
            mobile_url := none, desktop_url := none,
            country_redirect := none } := by
  rcases p with ⟨pp, pe, pm, pmu, pdu, pcr, plu, psi⟩
  simp only [UpdatePayload.noRecognized, Bool.and_eq_true, decide_eq_true_eq]
    at h
  obtain ⟨⟨⟨⟨⟨h1, h2⟩, h3⟩, h4⟩, h5⟩, h6⟩ := h
  subst h1; subst h2; subst h3; subst h4; subst h5; subst h6
  rfl

/-- The store after an update request: rewritten through `$set` of the
built fields exactly on the success path, untouched otherwise. -/
theorem update_url_store_characterization (store : List UrlRecord)
    (sid : String) (j : Bool) (p : UpdatePayload) :
    (update_url store sid j p).2 = store ∨
    (∃ f r, build_update_fields p = .ok f ∧ f.isEmpty = false ∧
      find_one store sid = some r ∧ j = true ∧
      (update_url store sid j p).2 = update_one_set store sid f) := by
  unfold update_url
  cases hf : find_one store sid with
  | none => left; rfl
  | some r =>
    by_cases hj : j
    · cases hb : build_update_fields p with
      | error e => left; simp [hj]
      | ok f =>
        by_cases he : f.isEmpty
        · left; simp [hj, he]
        · right
          exact ⟨f, r, rfl, by simpa using he, rfl, hj, by simp [hj, he]⟩
    · left; simp [hj]

/-! ## Claim C3 — `is_expired` is the disjunction of the date check and the
quota check -/

/-- C3: for every record whose stored expiry date is absent or well-formed
and whose `max_clicks` is absent or positive, `is_expired` returns exactly
the disjunction of "expiry_date set, well-formed and strictly in the past"
and "max_clicks set and clicks >= max_clicks"; a future or equal date and
an absent field contribute false, and the quota check is false while
`clicks < N` and true once `clicks >= N`. -/
theorem is_expired_disjunction (r : UrlRecord) (now : DateTime)
    (hwf : wellFormedExpiry r = true) (hpos : maxClicksPositive r = true) :
    is_expired r now =
      .ok (expiredByDate r now || exhaustedByQuota r) := by
  have hquota :
      (match r.max_clicks with
       | some m => Except.ok (m ≠ 0 && decide ((r.clicks : Int) ≥ m))
       | none => Except.ok false) =
        (Except.ok (exhaustedByQuota r) : Except String Bool) := by
    unfold exhaustedByQuota
    cases hmc : r.max_clicks with
    | none => rfl
    | some n =>
      have hne : n ≠ 0 := by
        unfold maxClicksPositive at hpos
        rw [hmc] at hpos
        simp at hpos
        omega
      simp [hne, ge_iff_le]
  unfold is_expired
  cases hed : r.expiry_date with
  | none =>
    have hdate : expiredByDate r now = false := by
      unfold expiredByDate; rw [hed]
    rw [hdate]
    simpa [truthy, hed] using hquota
  | some s =>
    by_cases hs : s = ""
    · have hdate : expiredByDate r now = false := by
        unfold expiredByDate; rw [hed]; subst hs; simp
      rw [hdate]
      subst hs
      simpa [truthy, hed] using hquota
    · have hsome : (strptime s).isSome := by
        unfold wellFormedExpiry at hwf
        rw [hed] at hwf
        simpa [hs] using hwf
      obtain ⟨d, hd⟩ := Option.isSome_iff_exists.mp hsome
      have hdate : expiredByDate r now = DateTime.lt d now := by
        unfold expiredByDate; rw [hed]; simp [hd, hs]
      rw [hdate]
      simp only [truthy, hed]
      rw [if_pos (by simpa using hs)]
      rw [show (some s).getD "" = s from rfl, hd]
      cases hlt : DateTime.lt d now with
      | true => simp [hlt]
      | false => simpa [hlt] using hquota

/-- A record with a past well-formed expiry date and a met click quota. -/
def expiredDemoRecord : UrlRecord :=
  { short_id := "e1", long_url := "https://example.com", clicks := 3,
    password := none, expiry_date := some "2024-01-01 00:00:00",
    max_clicks := some 3, mobile_url := none, desktop_url := none,
    country_redirect := none }

/-- A reference instant: 2025-06-15 12:00:00. -/
def witnessNow : DateTime := ⟨2025, 6, 15, 12, 0, 0⟩

/-- Witness for C3 at a concrete record and instant. -/
theorem is_expired_disjunction_witness :
    wellFormedExpiry expiredDemoRecord = true ∧
    maxClicksPositive expiredDemoRecord = true ∧
    is_expired expiredDemoRecord witnessNow =
      .ok (expiredByDate expiredDemoRecord witnessNow ||
        exhaustedByQuota expiredDemoRecord) :=
  ⟨by decide, by decide,
   is_expired_disjunction expiredDemoRecord witnessNow (by decide) (by decide)⟩

/-! ## Claim C6 — malformed expiry dates and write-time validation -/

/-- A creation request carrying a malformed expiry date. -/
def malformedExpiryInput : ShortenInput :=
  { long_url := some "https://e.com", custom_id := some "x1",
    password := none, expiry_date := some "not-a-date", max_clicks := none,
    mobile_url := none, desktop_url := none, country_redirect := none }

/-- C6 (code bug evidence): the creation operation accepts a malformed
expiry date without any `ValidationError` — the record is stored with
`expiry_date = "not-a-date"` — and `is_expired` on the stored record then
raises (at read time) for every `now`, so every later redirect request
raises instead of resolving. -/
theorem malformed_expiry_accepted_then_read_raises :
    ∃ r, shorten [] malformedExpiryInput [] = (.created r, [r]) ∧
      r.expiry_date = some "not-a-date" ∧
      (∀ now : DateTime,
        is_expired r now =
          .error "ValueError: time data does not match format") ∧
      (∀ (req : RedirectRequest) (now : DateTime),
        (redirect_short_url [r] "x1" req now).1 =
          .raised "ValueError: time data does not match format") := by
  refine ⟨{ short_id := "x1", long_url := "https://e.com", clicks := 0,
            password := none, expiry_date := some "not-a-date",
            max_clicks := none, mobile_url := none, desktop_url := none,
            country_redirect := none }, by decide, rfl, fun now => rfl,
          fun req now => rfl⟩

/-! ## Claim C9 — non-integer `max_clicks` in an update -/

/-- An existing record for the C9 failing input. -/
def quotaTargetRecord : UrlRecord :=
  { short_id := "q1", long_url := "https://example.com", clicks := 0,
    password := none, expiry_date := none, max_clicks := none,
    mobile_url := none, desktop_url := none, country_redirect := none }

/-- An update payload whose `max_clicks` does not parse as an integer. -/
def badMaxClicksPayload : UpdatePayload :=
  { password := none, expiry_date := none, max_clicks := some (.str "abc"),
    mobile_url := none, desktop_url := none, country_redirect := none,
    long_url := none, short_id := none }

/-- C9 (code bug evidence): an update whose present, non-empty `max_clicks`
does not parse as an integer terminates with an uncaught `ValueError`
(surfaced as a 500, not a handled 400 `ValidationError`) — and the record
is left unchanged. -/
theorem bad_max_clicks_update_raises :
    update_url [quotaTargetRecord] "q1" true badMaxClicksPayload =
      (.raised "ValueError: invalid literal for int",
       [quotaTargetRecord]) := by
  decide

/-- On the gate-admitting, non-expired path, the redirect endpoint's 302
target is exactly the spec-side resolver. -/
theorem redirect_resolves (store : List UrlRecord) (sid : String)
    (req : RedirectRequest) (now : DateTime) (r : UrlRecord)
    (hf : find_one store sid = some r)
    (he : is_expired r now = .ok false)
    (hp : truthy r.password = false) :
    (redirect_short_url store sid req now).1 =
      .redirected (resolveSpec r req.is_mobile req.is_pc
        (pyUpper (req.country_header.getD ""))) := by
  rw [redirect_eq, hf]
  simp [he, hp]

/-! ## Claim C1 — resolver precedence -/

/-- A record whose `country_redirect` maps `"US"` to the empty URL (such a
mapping is exactly what creation stores for the input `"US="`). -/
def emptyCountryUrlRecord : UrlRecord :=
  { short_id := "c1", long_url := "https://long.com", clicks := 0,
    password := none, expiry_date := none, max_clicks := none,
    mobile_url := none, desktop_url := some "https://d.com",
    country_redirect := some [("US", "")] }

/-- A desktop request carrying `X-Country: US`. -/
def usDesktopReq : RedirectRequest :=
  { method := .GET, form_password := none, is_json := false,
    json_password := none, is_mobile := false, is_pc := true,
    country_header := some "US" }

/-- C1 (counterexample): the request's country code `"US"` is a key of the
record's `country_redirect` mapping (with mapped URL `""`, as creation
stores for the pair `"US="`), yet the resolved target is the device URL,
not the mapped URL — the country override is skipped whenever the mapped
URL is empty, so the claim as stated fails. -/
theorem resolver_precedence_counterexample :
    parse_country_redirect "US=" = [("US", "")] ∧
    emptyCountryUrlRecord.country_redirect = some [("US", "")] ∧
    dictLookup [("US", "")] (pyUpper "US") = some "" ∧
    (redirect_short_url [emptyCountryUrlRecord] "c1" usDesktopReq
        witnessNow).1 = .redirected "https://d.com" ∧
    RedirectOutcome.redirected "https://d.com" ≠ .redirected "" := by
  decide

/-- C1 (amended): on every record the gate admits (no password; the
password-accepted path behaves identically) and that is not expired, the
resolved target follows the precedence with the override applied only for a
non-empty mapped URL: country override with non-empty URL > device
override (mobile, then desktop, with non-empty device URL) > `long_url`. -/
theorem resolver_precedence_amended (store : List UrlRecord) (sid : String)
    (req : RedirectRequest) (now : DateTime) (r : UrlRecord)
    (hf : find_one store sid = some r)
    (he : is_expired r now = .ok false)
    (hp : truthy r.password = false) :
    (redirect_short_url store sid req now).1 =
      .redirected (resolveSpec r req.is_mobile req.is_pc
        (pyUpper (req.country_header.getD ""))) :=
  redirect_resolves store sid req now r hf he hp

/-- A record with all three override kinds set. -/
def precedenceRecord : UrlRecord :=
  { short_id := "r1", long_url := "https://fallback.com", clicks := 0,
    password := none, expiry_date := none, max_clicks := none,
    mobile_url := some "https://m.x.com",
    desktop_url := some "https://d.x.com",
    country_redirect :=
      some [("US", "https://us.x.com"), ("IN", "https://in.x.com")] }

/-- A mobile request carrying `X-Country: in`. -/
def inMobileReq : RedirectRequest :=
  { method := .GET, form_password := none, is_json := false,
    json_password := none, is_mobile := true, is_pc := false,
    country_header := some "in" }

/-- Witness for the amended C1: with all three override kinds set, a
matching lowercase `X-Country: in` wins over the matching mobile device
class. -/
theorem resolver_precedence_amended_witness :
    find_one [precedenceRecord] "r1" = some precedenceRecord ∧
    is_expired precedenceRecord witnessNow = .ok false ∧
    truthy precedenceRecord.password = false ∧
    (redirect_short_url [precedenceRecord] "r1" inMobileReq witnessNow).1 =
      .redirected (resolveSpec precedenceRecord inMobileReq.is_mobile
        inMobileReq.is_pc (pyUpper (inMobileReq.country_header.getD ""))) ∧
    resolveSpec precedenceRecord inMobileReq.is_mobile inMobileReq.is_pc
      (pyUpper (inMobileReq.country_header.getD "")) = "https://in.x.com" :=
  ⟨by decide, by decide, by decide,
   resolver_precedence_amended [precedenceRecord] "r1" inMobileReq
     witnessNow precedenceRecord (by decide) (by decide) (by decide),
   by decide⟩

/-! ## Claim C5 — requests without an `X-Country` header -/

/-- A record whose `country_redirect` maps the empty-string code to a URL
(what creation stores for the malformed pair `"=https://evil.com"`). -/
def emptyCodeRecord : UrlRecord :=
  { short_id := "c5", long_url := "https://long.com", clicks := 0,
    password := none, expiry_date := none, max_clicks := none,
    mobile_url := none, desktop_url := none,
    country_redirect := some [("", "https://evil.com")] }

/-- A request with no `X-Country` header and an unclassified device. -/
def headerlessReq : RedirectRequest :=
  { method := .GET, form_password := none, is_json := false,
    json_password := none, is_mobile := false, is_pc := false,
    country_header := none }

/-- C5 (counterexample): a missing `X-Country` header is looked up as the
empty-string country code, so a record whose mapping contains the empty
code (creatable from the input `"=https://evil.com"`) is given a country
override even without the header — the resolved target is the mapped URL,
not the device/`long_url` result. -/
theorem no_header_counterexample :
    parse_country_redirect "=https://evil.com" =
      [("", "https://evil.com")] ∧
    headerlessReq.country_header = none ∧
    (redirect_short_url [emptyCodeRecord] "c5" headerlessReq
        witnessNow).1 = .redirected "https://evil.com" ∧
    deviceResolve emptyCodeRecord false false = "https://long.com" ∧
    ("https://evil.com" : String) ≠ "https://long.com" := by
  decide

/-- C5 (amended): for every record whose `country_redirect` does not map
the empty-string code to a non-empty URL, a redirect request lacking the
`X-Country` header resolves by the device override and `long_url` fallback
logic alone (stated on the gate-admitting, non-expired path on which a
target is resolved at all). -/
theorem no_header_no_country_override_amended (store : List UrlRecord)
    (sid : String) (req : RedirectRequest) (now : DateTime) (r : UrlRecord)
    (hf : find_one store sid = some r)
    (he : is_expired r now = .ok false)
    (hp : truthy r.password = false)
    (hh : req.country_header = none)
    (hcr : (dictLookup (r.country_redirect.getD []) "").getD "" = "") :
    (redirect_short_url store sid req now).1 =
      .redirected (deviceResolve r req.is_mobile req.is_pc) := by
  have hmain := redirect_resolves store sid req now r hf he hp
  rw [hmain, hh]
  have hup : pyUpper ((none : Option String).getD "") = "" := by decide
  rw [hup]
  unfold resolveSpec
  cases hc : r.country_redirect with
  | none => rfl
  | some cd =>
    rw [hc] at hcr
    simp only [Option.getD_some] at hcr
    cases hl : dictLookup cd "" with
    | none => simp [hl]
    | some u =>
      rw [hl, Option.getD_some] at hcr
      simp [hl, hcr]

/-- A record whose mapping has no empty-string code. -/
def usOnlyRecord : UrlRecord :=
  { short_id := "u1", long_url := "https://long.com", clicks := 0,
    password := none, expiry_date := none, max_clicks := none,
    mobile_url := some "https://m.com", desktop_url := none,
    country_redirect := some [("US", "https://us.x.com")] }

/-- Witness for the amended C5: with a `US`-only mapping and no header, a
mobile request resolves to the mobile URL. -/
theorem no_header_no_country_override_amended_witness :
    find_one [usOnlyRecord] "u1" = some usOnlyRecord ∧
    is_expired usOnlyRecord witnessNow = .ok false ∧
    (redirect_short_url [usOnlyRecord] "u1"
        { headerlessReq with is_mobile := true } witnessNow).1 =
      .redirected (deviceResolve usOnlyRecord true false) ∧
    deviceResolve usOnlyRecord true false = "https://m.com" :=
  ⟨by decide, by decide,
   no_header_no_country_override_amended [usOnlyRecord] "u1"
     { headerlessReq with is_mobile := true } witnessNow usOnlyRecord
     (by decide) (by decide) (by decide) (by decide) (by decide),
   by decide⟩

/-! ## Claim C2 — the access gate -/

/-- A password-protected record. -/
def passwordRecord : UrlRecord :=
  { short_id := "p1", long_url := "https://secret.com", clicks := 0,
    password := some "secret", expiry_date := none, max_clicks := none,
    mobile_url := none, desktop_url := none, country_redirect := none }

/-- A POST request that carries no password field at all. -/
def postNoFieldReq : RedirectRequest :=
  { method := .POST, form_password := none, is_json := false,
    json_password := none, is_mobile := false, is_pc := false,
    country_header := none }

/-- C2 (counterexample): the gate branches on the HTTP method, not on the
presence of a password field — a POST request with no password field at all
gets the Denied outcome (403 incorrect password), not the PasswordRequired
re-prompt the claim promises for every field-less request. -/
theorem access_gate_counterexample :
    truthy passwordRecord.password = true ∧
    extract_password postNoFieldReq = none ∧
    (redirect_short_url [passwordRecord] "p1" postNoFieldReq
        witnessNow).1 = .wrongPassword ∧
    RedirectOutcome.wrongPassword ≠ .passwordPrompt := by
  decide

/-- C2 (amended): on a non-expired record with a password set, a GET
request always yields the PasswordRequired re-prompt, and a POST request
yields Allow exactly when the extracted password value (form field when
non-empty, else JSON field when the body is JSON, else absent) equals the
stored password under case-sensitive string equality, else Denied — in
particular a POST carrying no password field is Denied; with no password
set the gate always allows. -/
theorem access_gate_amended :
    (∀ (store : List UrlRecord) (sid : String) (req : RedirectRequest)
        (now : DateTime) (r : UrlRecord) (pw : String),
      find_one store sid = some r → is_expired r now = .ok false →
      r.password = some pw → pw ≠ "" →
      ((req.method = .GET →
          (redirect_short_url store sid req now).1 = .passwordPrompt) ∧
       (req.method = .POST → extract_password req = some pw →
          ∃ t, (redirect_short_url store sid req now).1 = .redirected t) ∧
       (req.method = .POST → extract_password req ≠ some pw →
          (redirect_short_url store sid req now).1 = .wrongPassword))) ∧
    (∀ (store : List UrlRecord) (sid : String) (req : RedirectRequest)
        (now : DateTime) (r : UrlRecord),
      find_one store sid = some r → is_expired r now = .ok false →
      truthy r.password = false →
      ∃ t, (redirect_short_url store sid req now).1 = .redirected t) := by
  constructor
  · intro store sid req now r pw hf he hpw hne
    have hp : truthy r.password = true := by
      rw [hpw]; simpa [truthy] using hne
    refine ⟨?_, ?_, ?_⟩
    · intro hm
      rw [redirect_eq, hf]
      simp [he, hp, hm]
    · intro hm hx
      rw [redirect_eq, hf]
      refine ⟨resolveSpec r req.is_mobile req.is_pc
        (pyUpper (req.country_header.getD "")), ?_⟩
      simp [he, hp, hm, hx, hpw]
    · intro hm hx
      rw [redirect_eq, hf]
      have : extract_password req ≠ r.password := by rw [hpw]; exact hx
      simp [he, hp, hm, this]
  · intro store sid req now r hf he hp
    refine ⟨resolveSpec r req.is_mobile req.is_pc
      (pyUpper (req.country_header.getD "")), ?_⟩
    rw [redirect_eq, hf]
    simp [he, hp]

/-- A POST request supplying the correct password in the form field. -/
def postGoodPwdReq : RedirectRequest :=
  { method := .POST, form_password := some "secret", is_json := false,
    json_password := none, is_mobile := false, is_pc := false,
    country_header := none }

/-- Witness for the amended C2: on the password-protected record, a GET
re-prompts, a POST with the matching form password is allowed through, and
a POST with no password field is denied. -/
theorem access_gate_amended_witness :
    (redirect_short_url [passwordRecord] "p1"
        { postNoFieldReq with method := .GET } witnessNow).1 =
      .passwordPrompt ∧
    (∃ t, (redirect_short_url [passwordRecord] "p1" postGoodPwdReq
        witnessNow).1 = .redirected t) ∧
    (redirect_short_url [passwordRecord] "p1" postNoFieldReq
        witnessNow).1 = .wrongPassword :=
  ⟨(access_gate_amended.1 [passwordRecord] "p1"
      { postNoFieldReq with method := .GET } witnessNow passwordRecord
      "secret" (by decide) (by decide) (by decide) (by decide)).1 rfl,
   (access_gate_amended.1 [passwordRecord] "p1" postGoodPwdReq witnessNow
      passwordRecord "secret" (by decide) (by decide) (by decide)
      (by decide)).2.1 rfl (by decide),
   (access_gate_amended.1 [passwordRecord] "p1" postNoFieldReq witnessNow
      passwordRecord "secret" (by decide) (by decide) (by decide)
      (by decide)).2.2 rfl (by decide)⟩

/-! ## Inversion and preservation helpers for the endpoints -/

theorem shorten_insert_created {store : List UrlRecord} {inp : ShortenInput}
    {g : String} {r : UrlRecord} {store' : List UrlRecord}
    (h : shorten_insert store inp g = (.created r, store')) :
    store' = store ++ [r] ∧ r.clicks = 0 ∧ r.short_id = g ∧
    r.long_url = inp.long_url.getD "" ∧
    r.password = orNone inp.password ∧
    r.expiry_date = orNone inp.expiry_date ∧
    r.mobile_url = orNone inp.mobile_url ∧
    r.desktop_url = orNone inp.desktop_url ∧
    (inp.max_clicks = some "" → r.max_clicks = none) ∧
    (inp.country_redirect = some "" → r.country_redirect = none) := by
  unfold shorten_insert at h
  by_cases hm : truthy inp.max_clicks
  · rw [if_pos hm] at h
    cases hp : pyInt (inp.max_clicks.getD "") with
    | none => simp [hp] at h
    | some n =>
      simp only [hp, Prod.mk.injEq, ShortenResult.created.injEq] at h
      obtain ⟨h1, h2⟩ := h
      subst h1
      refine ⟨h2.symm, rfl, rfl, rfl, rfl, rfl, rfl, rfl, ?_, ?_⟩
      · intro hmc; rw [hmc] at hm; exact absurd hm (by simp [truthy])
      · intro hcr; simp [hcr, truthy]
  · rw [if_neg hm] at h
    simp only [Prod.mk.injEq, ShortenResult.created.injEq] at h
    obtain ⟨h1, h2⟩ := h
    subst h1
    refine ⟨h2.symm, rfl, rfl, rfl, rfl, rfl, rfl, rfl, fun _ => rfl, ?_⟩
    intro hcr; simp [hcr, truthy]

theorem shorten_created {store : List UrlRecord} {inp : ShortenInput}
    {gens : List String} {r : UrlRecord} {store' : List UrlRecord}
    (h : shorten store inp gens = (.created r, store')) :
    store' = store ++ [r] ∧ r.clicks = 0 ∧
    r.long_url = inp.long_url.getD "" ∧
    r.password = orNone inp.password ∧
    r.expiry_date = orNone inp.expiry_date ∧
    r.mobile_url = orNone inp.mobile_url ∧
    r.desktop_url = orNone inp.desktop_url ∧
    (inp.max_clicks = some "" → r.max_clicks = none) ∧
    (inp.country_redirect = some "" → r.country_redirect = none) := by
  unfold shorten at h
  by_cases hl : truthy inp.long_url
  · rw [if_neg (by simpa using hl)] at h
    by_cases hc : truthy inp.custom_id
    · rw [if_pos hc] at h
      by_cases ht : (find_one store (inp.custom_id.getD "")).isSome
      · rw [if_pos ht] at h
        simp at h
      · rw [if_neg ht] at h
        obtain ⟨h1, h2, _, h3, h4, h5, h6, h7, h8, h9⟩ :=
          shorten_insert_created h
        exact ⟨h1, h2, h3, h4, h5, h6, h7, h8, h9⟩
    · rw [if_neg hc] at h
      cases hg : firstFresh store gens with
      | none => rw [hg] at h; simp at h
      | some g =>
        rw [hg] at h
        obtain ⟨h1, h2, _, h3, h4, h5, h6, h7, h8, h9⟩ :=
          shorten_insert_created h
        exact ⟨h1, h2, h3, h4, h5, h6, h7, h8, h9⟩
  · rw [if_pos (by simpa using hl)] at h
    simp at h

theorem shorten_insert_store_characterization (store : List UrlRecord)
    (inp : ShortenInput) (g : String) :
    (shorten_insert store inp g).2 = store ∨
    (∃ r, (shorten_insert store inp g).1 = .created r ∧
      (shorten_insert store inp g).2 = store ++ [r] ∧ r.clicks = 0) := by
  unfold shorten_insert
  by_cases hm : truthy inp.max_clicks
  · rw [if_pos hm]
    cases hp : pyInt (inp.max_clicks.getD "") with
    | none => left; simp [hp]
    | some n =>
      simp only [hp]
      right; exact ⟨_, rfl, rfl, rfl⟩
  · rw [if_neg hm]
    right; exact ⟨_, rfl, rfl, rfl⟩

theorem shorten_store_characterization (store : List UrlRecord)
    (inp : ShortenInput) (gens : List String) :
    (shorten store inp gens).2 = store ∨
    (∃ r, (shorten store inp gens).1 = .created r ∧
      (shorten store inp gens).2 = store ++ [r] ∧ r.clicks = 0) := by
  unfold shorten
  by_cases hl : truthy inp.long_url
  · rw [if_neg (by simpa using hl)]
    by_cases hc : truthy inp.custom_id
    · rw [if_pos hc]
      by_cases ht : (find_one store (inp.custom_id.getD "")).isSome
      · rw [if_pos ht]; left; rfl
      · rw [if_neg ht]
        exact shorten_insert_store_characterization store inp _
    · rw [if_neg hc]
      cases hg : firstFresh store gens with
      | none => left; rfl
      | some g => exact shorten_insert_store_characterization store inp g
  · rw [if_pos (by simpa using hl)]; left; rfl

theorem find_one_update_url_pair (store : List UrlRecord) (sid : String)
    (j : Bool) (p : UpdatePayload) (sid' : String) :
    (find_one ((update_url store sid j p).2) sid').map
        (fun r => (r.short_id, r.long_url)) =
      (find_one store sid').map (fun r => (r.short_id, r.long_url)) := by
  rcases update_url_store_characterization store sid j p with
    h | ⟨f, r, _, _, _, _, hs⟩
  · rw [h]
  · rw [hs]
    by_cases hsid : sid' = sid
    · subst hsid
      rw [find_one_update_one_set]
      cases find_one store sid' with
      | none => rfl
      | some x => simp [applySet_short_id, applySet_long_url]
    · rw [find_one_update_one_set_other store f hsid]

/-! ## Claim C7 — update idempotence and the empty-payload no-op -/

/-- C7: applying the same update payload twice yields the same final
collection state as applying it once, and a payload with none of the
recognized fields present leaves the collection untouched and is answered
with a non-mutating outcome (404, non-JSON 400, or the distinct
"No updates provided" 400). -/
theorem update_idempotent_and_noop :
    (∀ (store : List UrlRecord) (sid : String) (j : Bool)
        (p : UpdatePayload),
      (update_url ((update_url store sid j p).2) sid j p).2 =
        (update_url store sid j p).2) ∧
    (∀ (store : List UrlRecord) (sid : String) (j : Bool)
        (p : UpdatePayload), p.noRecognized = true →
      (update_url store sid j p).2 = store ∧
      ((update_url store sid j p).1 = .notFound ∨
       (update_url store sid j p).1 = .notJson ∨
       (update_url store sid j p).1 = .noUpdates)) := by
  constructor
  · intro store sid j p
    rcases update_url_store_characterization store sid j p with
      h | ⟨f, r, hb, hne, hf, hj, hs⟩
    · rw [h]; exact h
    · rw [hs]
      subst hj
      have hfind :
          find_one (update_one_set store sid f) sid =
            some (applySet r f) := by
        rw [find_one_update_one_set, hf]; rfl
      unfold update_url
      rw [hfind]
      simp [hb, hne, update_one_set_idem]
  · intro store sid j p hnr
    have hb := build_noRecognized hnr
    unfold update_url
    cases hf : find_one store sid with
    | none => simp
    | some r =>
      by_cases hj : j
      · simp [hj, hb, UpdateFields.isEmpty]
      · simp [hj]

/-- A record an update is applied to twice. -/
def idemRecord : UrlRecord :=
  { short_id := "i1", long_url := "https://example.com", clicks := 7,
    password := none, expiry_date := none, max_clicks := none,
    mobile_url := none, desktop_url := none, country_redirect := none }

/-- A payload touching several recognized fields. -/
def idemPayload : UpdatePayload :=
  { password := some (some "pw2"), expiry_date := some none,
    max_clicks := some (.int 5), mobile_url := some (some "https://m.com"),
    desktop_url := none,
    country_redirect := some (some "US=https://us.x.com"),
    long_url := none, short_id := none }

/-- A payload with no recognized field. -/
def unrecognizedOnlyPayload : UpdatePayload :=
  { password := none, expiry_date := none, max_clicks := none,
    mobile_url := none, desktop_url := none, country_redirect := none,
    long_url := some (some "https://new.com"), short_id := none }

/-- Witness for C7 at a concrete record and payloads. -/
theorem update_idempotent_and_noop_witness :
    (update_url ((update_url [idemRecord] "i1" true idemPayload).2) "i1"
        true idemPayload).2 =
      (update_url [idemRecord] "i1" true idemPayload).2 ∧
    UpdatePayload.noRecognized unrecognizedOnlyPayload = true ∧
    (update_url [idemRecord] "i1" true unrecognizedOnlyPayload).2 =
      [idemRecord] :=
  ⟨update_idempotent_and_noop.1 [idemRecord] "i1" true idemPayload,
   by decide,
   (update_idempotent_and_noop.2 [idemRecord] "i1" true
      unrecognizedOnlyPayload (by decide)).1⟩

/-! ## Claim C8 — mutability of `long_url` through the update operation -/

/-- A record whose `long_url` an update then tries to change. -/
def renameTargetRecord : UrlRecord :=
  { short_id := "l1", long_url := "https://old.com", clicks := 0,
    password := none, expiry_date := none, max_clicks := none,
    mobile_url := none, desktop_url := none, country_redirect := none }

/-- C8 (counterexample): `long_url` is not in the update route's recognized
field list — a payload carrying only `long_url` is answered with
"No updates provided" and the stored `long_url` is untouched; no store,
identifier, or payload can change any record's stored `long_url` through
the update operation. -/
theorem long_url_update_counterexample :
    (update_url [renameTargetRecord] "l1" true unrecognizedOnlyPayload =
      (.noUpdates, [renameTargetRecord])) ∧
    renameTargetRecord.long_url = "https://old.com" ∧
    ¬ ∃ (store : List UrlRecord) (sid : String) (j : Bool)
        (p : UpdatePayload) (r r' : UrlRecord),
        find_one store sid = some r ∧
        find_one ((update_url store sid j p).2) sid = some r' ∧
        r'.long_url ≠ r.long_url := by
  refine ⟨by decide, rfl, ?_⟩
  rintro ⟨store, sid, j, p, r, r', h1, h2, h3⟩
  have hpair := find_one_update_url_pair store sid j p sid
  rw [h1, h2] at hpair
  simp only [Option.map_some', Option.some.injEq, Prod.mk.injEq] at hpair
  exact h3 hpair.2

/-- C8 (amended): `long_url` (like `short_id`) is immutable via the update
operation — after any update request, every record in the collection keeps
its `short_id` and its `long_url`. -/
theorem long_url_immutable_via_update (store : List UrlRecord)
    (sid : String) (j : Bool) (p : UpdatePayload) :
    ((update_url store sid j p).2).map
        (fun r => (r.short_id, r.long_url)) =
      store.map (fun r => (r.short_id, r.long_url)) := by
  rcases update_url_store_characterization store sid j p with
    h | ⟨f, r, _, _, _, _, hs⟩
  · rw [h]
  · rw [hs]; exact update_one_set_long_url_map store sid f

/-! ## Claim C4 — the clicks counter -/

/-- C4: `clicks` is 0 on every created record; a redirect that ends in a
302 increments the requested record's counter by exactly one and leaves
every other record untouched; a redirect with any other outcome (404,
expired, password prompt, wrong password, raised) leaves the collection
untouched; and the counter of every stored record is non-decreasing across
creation, update, and redirect requests (stats and the QR endpoint are
read-only functions of the store). -/
theorem clicks_counter_invariant :
    (∀ (store : List UrlRecord) (inp : ShortenInput) (gens : List String)
        (r : UrlRecord) (store' : List UrlRecord),
      shorten store inp gens = (.created r, store') → r.clicks = 0) ∧
    (∀ (store : List UrlRecord) (sid : String) (req : RedirectRequest)
        (now : DateTime) (t : String) (store' : List UrlRecord),
      redirect_short_url store sid req now = (.redirected t, store') →
      (find_one store' sid).map (fun r => r.clicks) =
        (find_one store sid).map (fun r => r.clicks + 1) ∧
      ∀ sid', sid' ≠ sid → find_one store' sid' = find_one store sid') ∧
    (∀ (store : List UrlRecord) (sid : String) (req : RedirectRequest)
        (now : DateTime) (out : RedirectOutcome) (store' : List UrlRecord),
      redirect_short_url store sid req now = (out, store') →
      (∀ t, out ≠ .redirected t) → store' = store) ∧
    (∀ (store : List UrlRecord) (inp : ShortenInput) (gens : List String)
        (sid : String) (c : Nat),
      (find_one store sid).map (fun r => r.clicks) = some c →
      ∃ c', (find_one ((shorten store inp gens).2) sid).map
          (fun r => r.clicks) = some c' ∧ c ≤ c') ∧
    (∀ (store : List UrlRecord) (sid : String) (j : Bool)
        (p : UpdatePayload) (sid' : String),
      (find_one ((update_url store sid j p).2) sid').map
          (fun r => r.clicks) =
        (find_one store sid').map (fun r => r.clicks)) ∧
    (∀ (store : List UrlRecord) (sid : String) (req : RedirectRequest)
        (now : DateTime) (sid' : String) (c : Nat),
      (find_one store sid').map (fun r => r.clicks) = some c →
      ∃ c', (find_one ((redirect_short_url store sid req now).2) sid').map
          (fun r => r.clicks) = some c' ∧ c ≤ c') := by
  have hredir : ∀ (store : List UrlRecord) (sid : String)
      (req : RedirectRequest) (now : DateTime),
      (redirect_short_url store sid req now).2 = store ∨
      (redirect_short_url store sid req now).2 = inc_clicks store sid := by
    intro store sid req now
    rcases redirect_store_characterization store sid req now with
      ⟨_, h⟩ | ⟨_, h⟩
    · right; exact h
    · left; exact h
  refine ⟨?_, ?_, ?_, ?_, ?_, ?_⟩
  · intro store inp gens r store' h
    exact (shorten_created h).2.1
  · intro store sid req now t store' h
    have hinc : store' = inc_clicks store sid := by
      rcases redirect_store_characterization store sid req now with
        ⟨_, h2⟩ | ⟨hno, _⟩
      · rw [h] at h2; exact h2
      · exact absurd (by rw [h]) (hno t)
    subst hinc
    constructor
    · rw [find_one_inc_clicks]
      cases find_one store sid with
      | none => rfl
      | some x => rfl
    · intro sid' hne
      exact find_one_inc_clicks_other store hne
  · intro store sid req now out store' h hno
    rcases redirect_store_characterization store sid req now with
      ⟨⟨t, h1⟩, _⟩ | ⟨_, h2⟩
    · rw [h] at h1; exact absurd h1 (hno t)
    · rw [h] at h2; exact h2
  · intro store inp gens sid c hc
    rcases shorten_store_characterization store inp gens with h | ⟨r, _, h, _⟩
    · exact ⟨c, by rw [h, hc], le_refl c⟩
    · rw [h]
      obtain ⟨x, hx, hxc⟩ := Option.map_eq_some'.mp hc
      rw [find_one_append [r] hx]
      exact ⟨c, by rw [Option.map_some', hxc], le_refl c⟩
  · intro store sid j p sid'
    rcases update_url_store_characterization store sid j p with
      h | ⟨f, r, _, _, _, _, hs⟩
    · rw [h]
    · rw [hs]
      by_cases hsid : sid' = sid
      · subst hsid
        rw [find_one_update_one_set]
        cases find_one store sid' with
        | none => rfl
        | some x => simp [applySet_clicks]
      · rw [find_one_update_one_set_other store f hsid]
  · intro store sid req now sid' c hc
    rcases hredir store sid req now with h | h
    · exact ⟨c, by rw [h, hc], le_refl c⟩
    · rw [h]
      by_cases hsid : sid' = sid
      · subst hsid
        rw [find_one_inc_clicks]
        obtain ⟨x, hx, hxc⟩ := Option.map_eq_some'.mp hc
        refine ⟨c + 1, ?_, Nat.le_succ c⟩
        rw [hx, Option.map_some', Option.map_some', hxc]
      · rw [find_one_inc_clicks_other store hsid, hc]
        exact ⟨c, rfl, le_refl c⟩

/-- A fresh creation request used to exercise the clicks invariant. -/
def counterDemoInput : ShortenInput :=
  { long_url := some "https://example.com", custom_id := some "k1",
    password := none, expiry_date := none, max_clicks := none,
    mobile_url := none, desktop_url := none, country_redirect := none }

/-- The record `counterDemoInput` creates. -/
def counterDemoRecord : UrlRecord :=
  { short_id := "k1", long_url := "https://example.com", clicks := 0,
    password := none, expiry_date := none, max_clicks := none,
    mobile_url := none, desktop_url := none, country_redirect := none }

/-- Witness for C4: creation yields clicks 0; a successful redirect on the
created record bumps its counter from 0 to 1; a redirect to an unknown id
leaves the store untouched; updates preserve the counter. -/
theorem clicks_counter_invariant_witness :
    counterDemoRecord.clicks = 0 ∧
    (find_one ((redirect_short_url [counterDemoRecord] "k1" headerlessReq
        witnessNow).2) "k1").map (fun r => r.clicks) =
      (find_one [counterDemoRecord] "k1").map (fun r => r.clicks + 1) ∧
    ((redirect_short_url [counterDemoRecord] "zz" headerlessReq
        witnessNow).2 = [counterDemoRecord]) ∧
    (find_one ((update_url [counterDemoRecord] "k1" true idemPayload).2)
        "k1").map (fun r => r.clicks) =
      (find_one [counterDemoRecord] "k1").map (fun r => r.clicks) :=
  ⟨clicks_counter_invariant.1 [] counterDemoInput [] counterDemoRecord
     [counterDemoRecord] (by decide),
   (clicks_counter_invariant.2.1 [counterDemoRecord] "k1" headerlessReq
     witnessNow "https://example.com" _ (by decide)).1,
   clicks_counter_invariant.2.2.1 [counterDemoRecord] "zz" headerlessReq
     witnessNow .notFound _ (by decide)
     (fun t hx => RedirectOutcome.noConfusion hx),
   clicks_counter_invariant.2.2.2.2.1 [counterDemoRecord] "k1" true
     idemPayload "k1"⟩

/-! ## Claim C10 — empty optional strings stored as unset -/

/-- C10: every optional field supplied as the empty string at creation is
stored as unset (`None`) — in particular a record created with an empty
password is not password-protected: the redirect endpoint never answers a
password prompt or a wrong-password 403 for a record whose stored password
is `None`. -/
theorem empty_optional_fields_unset :
    (∀ (store : List UrlRecord) (inp : ShortenInput) (gens : List String)
        (r : UrlRecord) (store' : List UrlRecord),
      shorten store inp gens = (.created r, store') →
      ((inp.password = some "" → r.password = none) ∧
       (inp.expiry_date = some "" → r.expiry_date = none) ∧
       (inp.mobile_url = some "" → r.mobile_url = none) ∧
       (inp.desktop_url = some "" → r.desktop_url = none) ∧
       (inp.max_clicks = some "" → r.max_clicks = none) ∧
       (inp.country_redirect = some "" → r.country_redirect = none))) ∧
    (∀ (store : List UrlRecord) (sid : String) (req : RedirectRequest)
        (now : DateTime) (r : UrlRecord),
      find_one store sid = some r → r.password = none →
      (redirect_short_url store sid req now).1 ≠ .passwordPrompt ∧
      (redirect_short_url store sid req now).1 ≠ .wrongPassword) := by
  constructor
  · intro store inp gens r store' h
    obtain ⟨_, _, _, hpw, hed, hmu, hdu, hmc, hcr⟩ := shorten_created h
    refine ⟨?_, ?_, ?_, ?_, hmc, hcr⟩
    · intro hx; rw [hpw, hx]; rfl
    · intro hx; rw [hed, hx]; rfl
    · intro hx; rw [hmu, hx]; rfl
    · intro hx; rw [hdu, hx]; rfl
  · intro store sid req now r hf hpw
    have hp : truthy r.password = false := by rw [hpw]; rfl
    rw [redirect_eq, hf]
    cases he : is_expired r now with
    | error e => simp [he]
    | ok b =>
      cases b with
      | true => simp [he]
      | false => simp [he, hp]

/-- A creation request whose optional fields are all empty strings. -/
def allEmptyInput : ShortenInput :=
  { long_url := some "https://example.com", custom_id := some "w1",
    password := some "", expiry_date := some "", max_clicks := some "",
    mobile_url := some "", desktop_url := some "",
    country_redirect := some "" }

/-- The record `allEmptyInput` creates: every optional field unset. -/
def allEmptyRecord : UrlRecord :=
  { short_id := "w1", long_url := "https://example.com", clicks := 0,
    password := none, expiry_date := none, max_clicks := none,
    mobile_url := none, desktop_url := none, country_redirect := none }

/-- Witness for C10: creating with all-empty optional fields stores them
all as unset, and a POST with no password on the resulting record is
served without any gate outcome. -/
theorem empty_optional_fields_unset_witness :
    (allEmptyRecord.password = none ∧ allEmptyRecord.expiry_date = none ∧
     allEmptyRecord.mobile_url = none ∧ allEmptyRecord.desktop_url = none ∧
     allEmptyRecord.max_clicks = none ∧
     allEmptyRecord.country_redirect = none) ∧
    (redirect_short_url [allEmptyRecord] "w1" postNoFieldReq
        witnessNow).1 ≠ .passwordPrompt ∧
    (redirect_short_url [allEmptyRecord] "w1" postNoFieldReq
        witnessNow).1 ≠ .wrongPassword :=
  ⟨by
    have h := (empty_optional_fields_unset.1 [] allEmptyInput []
      allEmptyRecord [allEmptyRecord] (by decide))
    exact ⟨h.1 rfl, h.2.1 rfl, h.2.2.1 rfl, h.2.2.2.1 rfl,
      h.2.2.2.2.1 rfl, h.2.2.2.2.2 rfl⟩,
   empty_optional_fields_unset.2 [allEmptyRecord] "w1" postNoFieldReq
     witnessNow allEmptyRecord (by decide) rfl⟩

end Linkly
